import Mathlib

/-!
# Verification of the snapshot-insight certificate-issuance subsystem

Shallow embedding of the certificate-issuance, PEM-encoding, API-server
startup and kubeconfig-materialization logic of the repository
(files `pkg/etcd/restore.go`, `pkg/etcd/cleanup.go` and the etcd package
file holding `GenerateSelfSignedCAWithSAN`, `GenerateClientCert`,
`StartKubeAPIServer`, `GenerateKubeconfig`, `writePEMFile`).

Bytes are modelled as `Nat` values (with explicit `< 256` bounds where
they matter), text as `List Char`, the process clock as a function from
call index to seconds since the Unix epoch, and external effects
(docker invocations, file writes) as explicit traces.
-/

namespace SnapshotInsight

/-! ## Base64 codec (Go `encoding/base64`, `StdEncoding`)

`base64.StdEncoding.EncodeToString` is used by `GenerateKubeconfig`;
`base64.StdEncoding.Decode` is used by `encoding/pem` when decoding.
Encoding maps each 3-byte group to 4 alphabet characters, padding the
final partial group with `=`. Decoding is strict about the alphabet but
(as in Go's non-strict `StdEncoding`) does not insist that unused
trailing bits are zero. -/

def b64Alphabet : List Char :=
  ['A', 'B', 'C', 'D', 'E', 'F', 'G', 'H', 'I', 'J', 'K', 'L', 'M',
   'N', 'O', 'P', 'Q', 'R', 'S', 'T', 'U', 'V', 'W', 'X', 'Y', 'Z',
   'a', 'b', 'c', 'd', 'e', 'f', 'g', 'h', 'i', 'j', 'k', 'l', 'm',
   'n', 'o', 'p', 'q', 'r', 's', 't', 'u', 'v', 'w', 'x', 'y', 'z',
   '0', '1', '2', '3', '4', '5', '6', '7', '8', '9', '+', '/']

/-- The character the base64 alphabet assigns to a six-bit value. -/
def encodeSextet (n : Nat) : Char := b64Alphabet.getD n 'A'

/-- The six-bit value of a base64 alphabet character, `none` for
characters outside the alphabet. -/
def decodeSextet (c : Char) : Option Nat := b64Alphabet.findIdx? (fun x => x = c)

/-- Go `base64.StdEncoding` encoding of a byte sequence, including
`=` padding of the final group. -/
def b64EncodeBytes : List Nat → List Char
  | [] => []
  | [x] => [encodeSextet (x / 4), encodeSextet (x % 4 * 16), '=', '=']
  | [x, y] => [encodeSextet (x / 4), encodeSextet (x % 4 * 16 + y / 16),
               encodeSextet (y % 16 * 4), '=']
  | x :: y :: z :: rest =>
      encodeSextet (x / 4) :: encodeSextet (x % 4 * 16 + y / 16) ::
      encodeSextet (y % 16 * 4 + z / 64) :: encodeSextet (z % 64) ::
      b64EncodeBytes rest

/-- Decoding of the final four-character base64 group, honouring `=`
padding. A stray `=` in a data position makes `decodeSextet` fail, as
in Go. -/
def b64DecodeGroup (a b c d : Char) : Option (List Nat) :=
  if c = '=' ∧ d = '=' then
    match decodeSextet a, decodeSextet b with
    | some s1, some s2 => some [s1 * 4 + s2 / 16]
    | _, _ => none
  else if d = '=' then
    match decodeSextet a, decodeSextet b, decodeSextet c with
    | some s1, some s2, some s3 => some [s1 * 4 + s2 / 16, s2 % 16 * 16 + s3 / 4]
    | _, _, _ => none
  else
    match decodeSextet a, decodeSextet b, decodeSextet c, decodeSextet d with
    | some s1, some s2, some s3, some s4 =>
        some [s1 * 4 + s2 / 16, s2 % 16 * 16 + s3 / 4, s3 % 4 * 64 + s4]
    | _, _, _, _ => none

/-- Go `base64.StdEncoding` decoding: four-character groups, padding
allowed only in the final group, input length must be a multiple of
four. -/
def b64DecodeChars : List Char → Option (List Nat)
  | [] => some []
  | a :: b :: c :: d :: rest =>
      if rest = [] then b64DecodeGroup a b c d
      else
        match decodeSextet a, decodeSextet b, decodeSextet c, decodeSextet d,
              b64DecodeChars rest with
        | some s1, some s2, some s3, some s4, some tl =>
            some ((s1 * 4 + s2 / 16) :: (s2 % 16 * 16 + s3 / 4) :: (s3 % 4 * 64 + s4) :: tl)
        | _, _, _, _, _ => none
  | _ => none

theorem decodeSextet_encodeSextet : ∀ n, n < 64 → decodeSextet (encodeSextet n) = some n := by
  decide

theorem encodeSextet_mem (n : Nat) : encodeSextet n ∈ b64Alphabet := by
  unfold encodeSextet List.getD
  cases h : b64Alphabet.get? n with
  | none => simpa [h] using (by decide : 'A' ∈ b64Alphabet)
  | some c => simpa [h] using List.get?_mem h

theorem encodeSextet_ne_pad (n : Nat) : encodeSextet n ≠ '=' := by
  intro h
  have hm := encodeSextet_mem n
  rw [h] at hm
  revert hm
  decide

theorem b64EncodeBytes_ne_nil (x : Nat) (rest : List Nat) :
    b64EncodeBytes (x :: rest) ≠ [] := by
  match rest with
  | [] => simp [b64EncodeBytes]
  | [y] => simp [b64EncodeBytes]
  | y :: z :: rest' => simp [b64EncodeBytes]

/-- Every character of a base64 encoding is in the alphabet or is the
padding character. -/
theorem b64EncodeBytes_chars (b : List Nat) :
    ∀ c ∈ b64EncodeBytes b, c ∈ b64Alphabet ∨ c = '=' := by
  induction b using b64EncodeBytes.induct with
  | case1 => simp [b64EncodeBytes]
  | case2 x =>
      simp only [b64EncodeBytes, List.mem_cons, List.not_mem_nil, or_false]
      rintro c (rfl | rfl | rfl | rfl)
      · exact Or.inl (encodeSextet_mem _)
      · exact Or.inl (encodeSextet_mem _)
      · exact Or.inr rfl
      · exact Or.inr rfl
  | case3 x y =>
      simp only [b64EncodeBytes, List.mem_cons, List.not_mem_nil, or_false]
      rintro c (rfl | rfl | rfl | rfl)
      · exact Or.inl (encodeSextet_mem _)
      · exact Or.inl (encodeSextet_mem _)
      · exact Or.inl (encodeSextet_mem _)
      · exact Or.inr rfl
  | case4 x y z rest ih =>
      simp only [b64EncodeBytes, List.mem_cons]
      rintro c (rfl | rfl | rfl | rfl | hc)
      · exact Or.inl (encodeSextet_mem _)
      · exact Or.inl (encodeSextet_mem _)
      · exact Or.inl (encodeSextet_mem _)
      · exact Or.inl (encodeSextet_mem _)
      · exact ih c hc

/-- Base64 decoding inverts base64 encoding on byte sequences. -/
theorem b64_roundtrip (b : List Nat) (hb : ∀ x ∈ b, x < 256) :
    b64DecodeChars (b64EncodeBytes b) = some b := by
  induction b using b64EncodeBytes.induct with
  | case1 => rfl
  | case2 x =>
      have hx : x < 256 := hb x (by simp)
      have hpp : (('=' : Char) = '=' ∧ ('=' : Char) = '=') := ⟨rfl, rfl⟩
      simp only [b64EncodeBytes, b64DecodeChars, if_pos rfl, b64DecodeGroup,
        if_pos hpp,
        decodeSextet_encodeSextet (x / 4) (by omega),
        decodeSextet_encodeSextet (x % 4 * 16) (by omega)]
      simp only [and_true, if_true, Option.some.injEq, List.cons.injEq]
      omega
  | case3 x y =>
      have hx : x < 256 := hb x (by simp)
      have hy : y < 256 := hb y (by simp)
      have hpad : ¬ (encodeSextet (y % 16 * 4) = '=' ∧ ('=' : Char) = '=') := by
        rintro ⟨h, -⟩; exact encodeSextet_ne_pad _ h
      simp only [b64EncodeBytes, b64DecodeChars, if_pos rfl, b64DecodeGroup,
        if_neg hpad, if_pos rfl,
        decodeSextet_encodeSextet (x / 4) (by omega),
        decodeSextet_encodeSextet (x % 4 * 16 + y / 16) (by omega),
        decodeSextet_encodeSextet (y % 16 * 4) (by omega)]
      simp only [and_true, if_true]
      rw [if_neg (encodeSextet_ne_pad (y % 16 * 4))]
      simp only [Option.some.injEq, List.cons.injEq, and_true]
      omega
  | case4 x y z rest ih =>
      have hx : x < 256 := hb x (by simp)
      have hy : y < 256 := hb y (by simp)
      have hz : z < 256 := hb z (by simp)
      have hrest : ∀ w ∈ rest, w < 256 := fun w hw => hb w (by simp [hw])
      have ihr := ih hrest
      cases hr : rest with
      | nil =>
          have hpad3 : ¬ (encodeSextet (y % 16 * 4 + z / 64) = '=' ∧
              encodeSextet (z % 64) = '=') := by
            rintro ⟨h, -⟩; exact encodeSextet_ne_pad _ h
          have hpad4 : ¬ encodeSextet (z % 64) = '=' := encodeSextet_ne_pad _
          simp only [hr, b64EncodeBytes, b64DecodeChars, if_pos rfl, b64DecodeGroup,
            if_neg hpad3, if_neg hpad4,
            decodeSextet_encodeSextet (x / 4) (by omega),
            decodeSextet_encodeSextet (x % 4 * 16 + y / 16) (by omega),
            decodeSextet_encodeSextet (y % 16 * 4 + z / 64) (by omega),
            decodeSextet_encodeSextet (z % 64) (by omega)]
          simp only [and_true, if_true, Option.some.injEq, List.cons.injEq]
          omega
      | cons w rest' =>
          rw [← hr]
          have hne : b64EncodeBytes rest ≠ [] := by
            rw [hr]; exact b64EncodeBytes_ne_nil _ _
          simp only [b64EncodeBytes, b64DecodeChars, if_neg hne, ihr,
            decodeSextet_encodeSextet (x / 4) (by omega),
            decodeSextet_encodeSextet (x % 4 * 16 + y / 16) (by omega),
            decodeSextet_encodeSextet (y % 16 * 4 + z / 64) (by omega),
            decodeSextet_encodeSextet (z % 64) (by omega)]
          simp only [and_true, true_and, if_true, Option.some.injEq, List.cons.injEq]
          omega

/-! ## PEM codec (Go `encoding/pem`)

`writePEMFile` and `GenerateClientCert` drive `pem.Encode` and
`pem.Decode`. `pem.Encode` writes `-----BEGIN <type>-----`, the base64
body wrapped at 64 characters per line, and `-----END <type>-----`.
`pem.Decode` scans for the first well-formed block: it finds a
`-----BEGIN ` marker at the start of a line, requires the rest of that
line to end in `-----` (the text between is the block type), skips
`key: value` header lines, locates the matching end line, and
base64-decodes the body ignoring spaces, tabs, carriage returns and
newlines. On most malformed candidates it continues scanning from the
current position; if the input ends while header lines are being read
it gives up entirely. -/

/-- Boolean list-prefix test (Go `bytes.HasPrefix`). -/
def hasPfx : List Char → List Char → Bool
  | [], _ => true
  | _ :: _, [] => false
  | p :: ps, c :: cs => p = c && hasPfx ps cs

/-- Boolean list-suffix test (Go `bytes.HasSuffix`). -/
def hasSfx (pat s : List Char) : Bool := hasPfx pat.reverse s.reverse

/-- Go `bytes.Cut`: the text after the first occurrence of `pat`,
`none` when `pat` does not occur. -/
def cutAfter (pat : List Char) : List Char → Option (List Char)
  | [] => if hasPfx pat [] then some [] else none
  | c :: rest =>
      if hasPfx pat (c :: rest) then some ((c :: rest).drop pat.length)
      else cutAfter pat rest

/-- Split around the first occurrence of `pat`: the text before it and
the text after it (Go `bytes.Index` followed by slicing). -/
def cutAround (pat : List Char) : List Char → Option (List Char × List Char)
  | [] => if hasPfx pat [] then some ([], []) else none
  | c :: rest =>
      if hasPfx pat (c :: rest) then some ([], (c :: rest).drop pat.length)
      else
        match cutAround pat rest with
        | some (before, after) => some (c :: before, after)
        | none => none

/-- Split a text at its first newline; the second component is `none`
when the text has no newline. -/
def splitAtNewline : List Char → List Char × Option (List Char)
  | [] => ([], none)
  | c :: rest =>
      if c = '\n' then ([], some rest)
      else
        let p := splitAtNewline rest
        (c :: p.1, p.2)

/-- Strip trailing spaces and tabs (Go `bytes.TrimRight(..., " \t")`). -/
def trimTrailingWS (s : List Char) : List Char :=
  (s.reverse.dropWhile (fun c => c = ' ' || c = '\t')).reverse

/-- Go `encoding/pem`'s `getLine`: the first line, with a carriage
return before the newline and trailing spaces and tabs removed, and the
remaining text. -/
def pemGetLine (s : List Char) : List Char × List Char :=
  match splitAtNewline s with
  | (line, none) => (trimTrailingWS line, [])
  | (line, some rest) =>
      let line2 := if line.getLast? = some '\r' then line.dropLast else line
      (trimTrailingWS line2, rest)

def dashes : List Char := ['-', '-', '-', '-', '-']

/-- `"-----BEGIN "`, the PEM start marker without its leading newline. -/
def beginMarker : List Char :=
  ['-', '-', '-', '-', '-', 'B', 'E', 'G', 'I', 'N', ' ']

/-- `"\n-----BEGIN "`. -/
def beginMarkerNL : List Char := '\n' :: beginMarker

/-- `"-----END "`, the PEM end marker without its leading newline. -/
def endMarker : List Char := ['-', '-', '-', '-', '-', 'E', 'N', 'D', ' ']

/-- `"\n-----END "`. -/
def endMarkerNL : List Char := '\n' :: endMarker

/-- The whitespace characters ignored inside a PEM body: spaces and
tabs are removed by `removeSpacesAndTabs`, carriage returns and
newlines are skipped by Go's base64 decoder. -/
def isPemSpace (c : Char) : Bool := c = ' ' || c = '\t' || c = '\r' || c = '\n'

/-- Skip `key: value` header lines (Go's header loop). Returns whether
any header was consumed and the position of the first non-header line;
`none` when the input runs out, which makes the whole decode give up.
Header keys and values are not retained: the repository never reads
them. -/
def skipHeaders : Nat → Bool → List Char → Option (Bool × List Char)
  | 0, _, _ => none
  | fuel + 1, sawHeader, s =>
      if s = [] then none
      else
        let p := pemGetLine s
        if ':' ∈ p.1 then skipHeaders fuel true p.2 else some (sawHeader, s)

/-- Outcome of examining one `-----BEGIN ` candidate. -/
inductive PemStep where
  | success (t : List Char) (b : List Nat)
  | hardFail
  | continueFrom (r : List Char)

/-- One iteration of Go `pem.Decode`'s scanning loop, starting just
after a `-----BEGIN ` marker. -/
def decodeAttempt (rest0 : List Char) : PemStep :=
  let p := pemGetLine rest0
  let typeLine := p.1
  let r2 := p.2
  if hasSfx dashes typeLine then
    let t := typeLine.take (typeLine.length - 5)
    match skipHeaders (r2.length + 1) false r2 with
    | none => .hardFail
    | some (sawHeader, r3) =>
        let endSplit : Option (List Char × List Char) :=
          if sawHeader = false ∧ hasPfx endMarker r3 then
            some ([], r3.drop endMarker.length)
          else cutAround endMarkerNL r3
        match endSplit with
        | none => .continueFrom r3
        | some (body, after) =>
            if hasPfx (t ++ dashes) after then
              if (pemGetLine (after.drop (t.length + 5))).1 = [] then
                match b64DecodeChars (body.filter (fun c => !(isPemSpace c))) with
                | some bytes => .success t bytes
                | none => .continueFrom r3
              else .continueFrom r3
            else .continueFrom r3
  else .continueFrom r2

/-- Go `pem.Decode`'s scanning loop: find a `-----BEGIN ` marker at the
start of the text or after a newline, examine the candidate block, and
on a recoverable mismatch keep scanning. The fuel only bounds the
number of candidates; `pemDecode` supplies more fuel than any input can
consume. -/
def pemDecodeAux : Nat → List Char → Option (List Char × List Nat)
  | 0, _ => none
  | fuel + 1, data =>
      let rest0? : Option (List Char) :=
        if hasPfx beginMarker data then some (data.drop beginMarker.length)
        else cutAfter beginMarkerNL data
      match rest0? with
      | none => none
      | some rest0 =>
          match decodeAttempt rest0 with
          | .success t b => some (t, b)
          | .hardFail => none
          | .continueFrom r => pemDecodeAux fuel r

/-- Go `pem.Decode`, returning the first block's type and DER bytes. -/
def pemDecode (s : List Char) : Option (List Char × List Nat) :=
  pemDecodeAux (s.length + 1) s

/-- Base64 body wrapping, 64 characters at a time. The fuel only
bounds the number of lines; `wrapLines` supplies enough for any input. -/
def wrapLinesAux : Nat → List Char → List Char
  | 0, _ => []
  | fuel + 1, s =>
      if s = [] then [] else s.take 64 ++ '\n' :: wrapLinesAux fuel (s.drop 64)

/-- Base64 body wrapping at 64 characters per line, each line
terminated by a newline (Go `pem.Encode`'s line breaker). -/
def wrapLines (s : List Char) : List Char := wrapLinesAux s.length s

/-- Go `pem.Encode` of a block with the given type and DER bytes and no
headers, as driven by `writePEMFile` and `GenerateClientCert`. -/
def pemEncode (t : List Char) (b : List Nat) : List Char :=
  beginMarker ++ t ++ dashes ++ '\n' ::
    (wrapLines (b64EncodeBytes b) ++ endMarker ++ t ++ dashes ++ ['\n'])

theorem hasPfx_append (p r : List Char) : hasPfx p (p ++ r) = true := by
  induction p with
  | nil => rfl
  | cons c cs ih => simp [hasPfx, ih]

theorem splitAtNewline_append (xs ys : List Char) (h : '\n' ∉ xs) :
    splitAtNewline (xs ++ '\n' :: ys) = (xs, some ys) := by
  induction xs with
  | nil => simp [splitAtNewline]
  | cons c cs ih =>
      have hc : ¬ c = '\n' := fun hh => h (by simp [hh])
      have hcs : '\n' ∉ cs := fun hh => h (by simp [hh])
      simp [splitAtNewline, hc, ih hcs]

theorem trimTrailingWS_concat (xs : List Char) (c : Char)
    (hc : (c = ' ' || c = '\t') = false) :
    trimTrailingWS (xs ++ [c]) = xs ++ [c] := by
  unfold trimTrailingWS
  rw [List.reverse_append]
  simp only [List.reverse_cons, List.reverse_nil, List.nil_append, List.singleton_append,
    List.dropWhile_cons, hc]
  simp

theorem pemGetLine_append (t ys : List Char) (h : '\n' ∉ t) :
    pemGetLine (t ++ dashes ++ '\n' :: ys) = (t ++ dashes, ys) := by
  have hnd : '\n' ∉ t ++ dashes := by
    intro hm
    rcases List.mem_append.mp hm with hm | hm
    · exact h hm
    · revert hm; decide
  have hsplit := splitAtNewline_append (t ++ dashes) ys hnd
  have hlast : (t ++ dashes).getLast? = some '-' := by
    have : t ++ dashes = (t ++ ['-', '-', '-', '-']) ++ ['-'] := by
      simp [dashes]
    rw [this, List.getLast?_concat]
  have htrim : trimTrailingWS (t ++ dashes) = t ++ dashes := by
    have : t ++ dashes = (t ++ ['-', '-', '-', '-']) ++ ['-'] := by
      simp [dashes]
    rw [this, trimTrailingWS_concat _ _ (by decide)]
  unfold pemGetLine
  rw [hsplit]
  simp only [hlast, Option.some.injEq]
  rw [if_neg (by decide)]
  rw [htrim]

theorem hasSfx_dashes (t : List Char) : hasSfx dashes (t ++ dashes) = true := by
  unfold hasSfx
  rw [List.reverse_append]
  exact hasPfx_append dashes.reverse t.reverse

theorem typeLine_take (t : List Char) :
    (t ++ dashes).take ((t ++ dashes).length - 5) = t := by
  have hlen : (t ++ dashes).length = t.length + 5 := by simp [dashes]
  rw [hlen]
  simp only [Nat.add_sub_cancel]
  rw [List.take_left']
  rfl

theorem cutAround_append (pat xs ys : List Char) (hpat : hasPfx pat ys = true)
    (hno : ∀ n, n < xs.length → hasPfx pat (xs.drop n ++ ys) = false) :
    cutAround pat (xs ++ ys) = some (xs, ys.drop pat.length) := by
  induction xs with
  | nil =>
      cases ys with
      | nil =>
          cases pat with
          | nil => simp [cutAround, hasPfx]
          | cons p ps => simp [hasPfx] at hpat
      | cons c cs => simp [cutAround, hpat]
  | cons c cs ih =>
      have h0 : hasPfx pat (c :: (cs ++ ys)) = false := by
        have := hno 0 (by simp)
        simpa using this
      have hno' : ∀ n, n < cs.length → hasPfx pat (cs.drop n ++ ys) = false := by
        intro n hn
        have := hno (n + 1) (by simp; omega)
        simpa using this
      simp only [List.cons_append, cutAround, List.append_eq, h0, Bool.false_eq_true,
        if_false, ih hno']

theorem wrapLines_nil : wrapLines [] = [] := rfl

theorem wrapLinesAux_fuel :
    ∀ (f1 f2 : Nat) (s : List Char), s.length ≤ f1 → s.length ≤ f2 →
      wrapLinesAux f1 s = wrapLinesAux f2 s := by
  intro f1
  induction f1 with
  | zero =>
      intro f2 s h1 h2
      have hs : s = [] := by
        cases s with
        | nil => rfl
        | cons c cs => simp at h1
      subst hs
      cases f2 with
      | zero => rfl
      | succ g => simp [wrapLinesAux]
  | succ k ih =>
      intro f2 s h1 h2
      by_cases hs : s = []
      · subst hs
        cases f2 with
        | zero => rfl
        | succ g => simp [wrapLinesAux]
      · have hpos := List.length_pos.mpr hs
        cases f2 with
        | zero => omega
        | succ g =>
            simp only [wrapLinesAux, hs, if_false]
            have hd1 : (s.drop 64).length ≤ k := by simp; omega
            have hd2 : (s.drop 64).length ≤ g := by simp; omega
            rw [ih g (s.drop 64) hd1 hd2]

theorem wrapLines_cons (s : List Char) (h : s ≠ []) :
    wrapLines s = s.take 64 ++ '\n' :: wrapLines (s.drop 64) := by
  have hpos := List.length_pos.mpr h
  unfold wrapLines
  cases hlen : s.length with
  | zero => omega
  | succ k =>
      simp only [wrapLinesAux, h, if_false]
      have hd1 : (s.drop 64).length ≤ k := by simp; omega
      rw [wrapLinesAux_fuel k (s.drop 64).length (s.drop 64) hd1 le_rfl]

theorem alphabet_char_props :
    ∀ c ∈ b64Alphabet, isPemSpace c = false ∧ c ≠ ':' ∧ c ≠ '-' := by
  decide

theorem pad_char_props :
    isPemSpace '=' = false ∧ ('=' : Char) ≠ ':' ∧ ('=' : Char) ≠ '-' := by
  decide

theorem enc_char_props (b : List Nat) :
    ∀ c ∈ b64EncodeBytes b, isPemSpace c = false ∧ c ≠ ':' ∧ c ≠ '-' := by
  intro c hc
  rcases b64EncodeBytes_chars b c hc with h | rfl
  · exact alphabet_char_props c h
  · exact pad_char_props

/-- `wrapLines` of a nonempty text ends in a newline, and every earlier
character is either from the text or an inserted newline. -/
theorem wrapLines_split :
    ∀ (n : Nat) (s : List Char), s.length ≤ n → s ≠ [] →
      ∃ b0, wrapLines s = b0 ++ ['\n'] ∧ ∀ c ∈ b0, c ∈ s ∨ c = '\n' := by
  intro n
  induction n with
  | zero =>
      intro s hlen hne
      cases s with
      | nil => exact absurd rfl hne
      | cons c cs => simp at hlen
  | succ k ih =>
      intro s hlen hne
      rw [wrapLines_cons s hne]
      by_cases hd : s.drop 64 = []
      · rw [hd, wrapLines_nil]
        exact ⟨s.take 64, by simp, fun c hc => Or.inl (List.mem_of_mem_take hc)⟩
      · have hpos := List.length_pos.mpr hne
        obtain ⟨b0, hb0, hmem⟩ := ih (s.drop 64) (by simp; omega) hd
        rw [hb0]
        refine ⟨s.take 64 ++ '\n' :: b0, by simp, ?_⟩
        intro c hc
        rcases List.mem_append.mp hc with hc | hc
        · exact Or.inl (List.mem_of_mem_take hc)
        · rcases List.mem_cons.mp hc with rfl | hc
          · exact Or.inr rfl
          · rcases hmem c hc with h | h
            · exact Or.inl (List.mem_of_mem_drop h)
            · exact Or.inr h

/-- Removing PEM whitespace from a wrapped body recovers the unwrapped
text. -/
theorem filter_wrapLines :
    ∀ (n : Nat) (s : List Char), s.length ≤ n →
      (∀ c ∈ s, isPemSpace c = false) →
      (wrapLines s).filter (fun c => !(isPemSpace c)) = s := by
  intro n
  induction n with
  | zero =>
      intro s hlen _
      cases s with
      | nil => simp [wrapLines_nil]
      | cons c cs => simp at hlen
  | succ k ih =>
      intro s hlen hs
      by_cases hne : s = []
      · simp [hne, wrapLines_nil]
      · rw [wrapLines_cons s hne, List.filter_append]
        have h1 : (s.take 64).filter (fun c => !(isPemSpace c)) = s.take 64 := by
          rw [List.filter_eq_self]
          intro c hc
          simp [hs c (List.mem_of_mem_take hc)]
        have hpos := List.length_pos.mpr hne
        have h2 := ih (s.drop 64) (by simp; omega)
          (fun c hc => hs c (List.mem_of_mem_drop hc))
        rw [h1, List.filter_cons]
        have hnl : (!(isPemSpace '\n')) = false := by decide
        rw [hnl]
        simp only [Bool.false_eq_true, if_false]
        rw [h2, List.take_append_drop]

/-- Go's header loop breaks immediately when the first line holds no
colon, consuming nothing. -/
theorem skipHeaders_break (fuel : Nat) (s : List Char) (hne : s ≠ [])
    (hnc : ':' ∉ (pemGetLine s).1) :
    skipHeaders (fuel + 1) false s = some (false, s) := by
  unfold skipHeaders
  simp [hne, hnc]

/-- `pemGetLine` on a clean line (no whitespace, no carriage return)
followed by a newline returns the line unchanged. -/
theorem pemGetLine_plain (l r : List Char) (hl : l ≠ [])
    (hc : ∀ c ∈ l, isPemSpace c = false) :
    pemGetLine (l ++ '\n' :: r) = (l, r) := by
  have hnl : '\n' ∉ l := by
    intro hm
    have := hc _ hm
    simp [isPemSpace] at this
  have hsplit := splitAtNewline_append l r hnl
  rcases List.eq_nil_or_concat l with rfl | ⟨l0, c, rfl⟩
  · exact absurd rfl hl
  · rw [List.concat_eq_append] at hsplit hc ⊢
    have hcs := hc c (by simp)
    simp only [isPemSpace, Bool.or_eq_false_iff, decide_eq_false_iff_not] at hcs
    simp only [pemGetLine, hsplit, List.getLast?_concat]
    rw [if_neg (by simp [hcs.1.2])]
    rw [trimTrailingWS_concat l0 c (by simp [hcs.1.1.1, hcs.1.1.2])]

theorem hasPfx_endMarker_cons (e0 : Char) (he : e0 ≠ '-') (s : List Char) :
    hasPfx endMarker (e0 :: s) = false := by
  simp [endMarker, hasPfx, Ne.symm he]

/-- The end marker `"\n-----END "` cannot start strictly inside a text
whose characters are never `'-'`, when the tail continues with a
newline. -/
theorem hasPfx_endNL_inside (xs ys' : List Char) (hxs : ∀ c ∈ xs, c ≠ '-') :
    ∀ n, n < xs.length → hasPfx endMarkerNL (xs.drop n ++ '\n' :: ys') = false := by
  intro n hn
  rw [List.drop_eq_getElem_cons hn]
  by_cases hx : xs[n] = '\n'
  · rw [hx]
    simp only [List.cons_append, endMarkerNL, endMarker, hasPfx]
    cases hd : xs.drop (n + 1) with
    | nil => simp [hasPfx]
    | cons d ds =>
        have hdm : d ∈ xs := List.mem_of_mem_drop (hd ▸ List.mem_cons_self d ds)
        simp [hasPfx, Ne.symm (hxs d hdm)]
  · simp [endMarkerNL, hasPfx, Ne.symm hx]

/-- Evaluation of `decodeAttempt` on a well-formed block whose body and
end line have already been located. -/
theorem decodeAttempt_eval (t r3 body after : List Char) (bts : List Nat)
    (hnl : '\n' ∉ t) (hr3ne : r3 ≠ []) (hnc : ':' ∉ (pemGetLine r3).1)
    (hsplit : (if hasPfx endMarker r3 = true then some ([], r3.drop endMarker.length)
               else cutAround endMarkerNL r3) = some (body, after))
    (hafter : after = (t ++ dashes) ++ '\n' :: [])
    (hdec : b64DecodeChars (body.filter (fun c => !(isPemSpace c))) = some bts) :
    decodeAttempt (t ++ dashes ++ '\n' :: r3) = PemStep.success t bts := by
  have hline := pemGetLine_append t r3 hnl
  have hskip := skipHeaders_break r3.length r3 hr3ne hnc
  have hlen5 : t.length + 5 = (t ++ dashes).length := by simp [dashes]
  simp only [decodeAttempt, hline, hasSfx_dashes, typeLine_take, hskip,
    eq_self_iff_true, true_and, if_true, hsplit, hafter, hasPfx_append]
  rw [hlen5, List.drop_left]
  have hnlline : (pemGetLine ('\n' :: ([] : List Char))).1 = [] := by decide
  simp only [hnlline, eq_self_iff_true, if_true, hdec]

/-- Examining the candidate block produced by `pemEncode` succeeds and
recovers the type and bytes, for colon- and newline-free types. -/
theorem decodeAttempt_encode (t : List Char) (b : List Nat) (hb : ∀ x ∈ b, x < 256)
    (hnl : '\n' ∉ t) (hcol : ':' ∉ t) :
    decodeAttempt (t ++ dashes ++ '\n' ::
      (wrapLines (b64EncodeBytes b) ++ ((endMarker ++ t) ++ dashes ++ '\n' :: []))) =
      PemStep.success t b := by
  have hEncChars := enc_char_props b
  have hF : ((endMarker ++ t) ++ dashes ++ '\n' :: []) =
      endMarker ++ (t ++ dashes ++ '\n' :: []) := by
    simp [List.append_assoc]
  have hr3ne : wrapLines (b64EncodeBytes b) ++ ((endMarker ++ t) ++ dashes ++ '\n' :: []) ≠ [] := by
    simp
  -- the first line after the BEGIN line holds no colon
  have hnc : ':' ∉ (pemGetLine (wrapLines (b64EncodeBytes b) ++
      ((endMarker ++ t) ++ dashes ++ '\n' :: []))).1 := by
    cases b with
    | nil =>
        have hwl : wrapLines (b64EncodeBytes ([] : List Nat)) = [] := by
          simp [b64EncodeBytes, wrapLines_nil]
        rw [hwl, List.nil_append]
        have hnl2 : '\n' ∉ endMarker ++ t := by
          intro hm
          rcases List.mem_append.mp hm with hm | hm
          · revert hm; decide
          · exact hnl hm
        rw [pemGetLine_append (endMarker ++ t) [] hnl2]
        intro hm
        rcases List.mem_append.mp hm with hm | hm
        · rcases List.mem_append.mp hm with hm | hm
          · revert hm; decide
          · exact hcol hm
        · revert hm; decide
    | cons b0 bs =>
        have hene : b64EncodeBytes (b0 :: bs) ≠ [] := b64EncodeBytes_ne_nil b0 bs
        have hEC := enc_char_props (b0 :: bs)
        rw [wrapLines_cons _ hene]
        have htkchars : ∀ c ∈ (b64EncodeBytes (b0 :: bs)).take 64, isPemSpace c = false :=
          fun c hc => (hEC c (List.mem_of_mem_take hc)).1
        have htkne : (b64EncodeBytes (b0 :: bs)).take 64 ≠ [] := by
          simp [List.take_eq_nil_iff, hene]
        have hshape : ((b64EncodeBytes (b0 :: bs)).take 64 ++
            '\n' :: wrapLines ((b64EncodeBytes (b0 :: bs)).drop 64)) ++
            ((endMarker ++ t) ++ dashes ++ '\n' :: []) =
            (b64EncodeBytes (b0 :: bs)).take 64 ++
              '\n' :: (wrapLines ((b64EncodeBytes (b0 :: bs)).drop 64) ++
              ((endMarker ++ t) ++ dashes ++ '\n' :: [])) := by
          simp [List.append_assoc]
        rw [hshape, pemGetLine_plain _ _ htkne htkchars]
        intro hm
        exact ((hEC ':' (List.mem_of_mem_take hm)).2.1) rfl
  cases b with
  | nil =>
      have hwl : wrapLines (b64EncodeBytes ([] : List Nat)) = [] := by
        simp [b64EncodeBytes, wrapLines_nil]
      rw [hwl, List.nil_append] at hr3ne hnc ⊢
      refine decodeAttempt_eval t _ [] ((t ++ dashes) ++ '\n' :: []) [] hnl hr3ne hnc ?_ rfl rfl
      have hpf : hasPfx endMarker ((endMarker ++ t) ++ dashes ++ '\n' :: []) = true := by
        rw [hF]
        exact hasPfx_append endMarker _
      rw [if_pos hpf, hF, List.drop_left]
  | cons b0 bs =>
      have hene : b64EncodeBytes (b0 :: bs) ≠ [] := b64EncodeBytes_ne_nil b0 bs
      have hEC := enc_char_props (b0 :: bs)
      obtain ⟨body0, hb0, hmem⟩ :=
        wrapLines_split (b64EncodeBytes (b0 :: bs)).length (b64EncodeBytes (b0 :: bs))
          le_rfl hene
      have hxs : ∀ c ∈ body0, c ≠ '-' := by
        intro c hc
        rcases hmem c hc with h | rfl
        · exact (hEC c h).2.2
        · decide
      have hshape2 : wrapLines (b64EncodeBytes (b0 :: bs)) ++
          ((endMarker ++ t) ++ dashes ++ '\n' :: []) =
          body0 ++ '\n' :: ((endMarker ++ t) ++ dashes ++ '\n' :: []) := by
        rw [hb0]
        simp [List.append_assoc]
      rw [hshape2] at hr3ne hnc ⊢
      -- the end marker does not begin the body
      have hnopfx : hasPfx endMarker (body0 ++ '\n' :: ((endMarker ++ t) ++ dashes ++ '\n' :: [])) = false := by
        cases htk : (b64EncodeBytes (b0 :: bs)).take 64 with
        | nil =>
            exact absurd (by simp [List.take_eq_nil_iff, hene] : ¬ (b64EncodeBytes (b0 :: bs)).take 64 = [] ) (by simp [htk])
        | cons e0 tk =>
            have he0 : e0 ∈ b64EncodeBytes (b0 :: bs) :=
              List.mem_of_mem_take (htk ▸ List.mem_cons_self e0 tk)
            have hwshape : wrapLines (b64EncodeBytes (b0 :: bs)) =
                e0 :: (tk ++ '\n' :: wrapLines ((b64EncodeBytes (b0 :: bs)).drop 64)) := by
              rw [wrapLines_cons _ hene, htk]
              simp
            have hbody0 : body0 ++ '\n' :: ((endMarker ++ t) ++ dashes ++ '\n' :: []) =
                (body0 ++ ['\n']) ++ ((endMarker ++ t) ++ dashes ++ '\n' :: []) := by
              simp [List.append_assoc]
            rw [hbody0, ← hb0, hwshape]
            exact hasPfx_endMarker_cons e0 ((hEC e0 he0).2.2) _
      -- locate the end line
      have hndl : ('\n' :: ((endMarker ++ t) ++ dashes ++ '\n' :: [])) =
          endMarkerNL ++ (t ++ dashes ++ '\n' :: []) := by
        simp [endMarkerNL, List.append_assoc]
      have hcut : cutAround endMarkerNL
          (body0 ++ '\n' :: ((endMarker ++ t) ++ dashes ++ '\n' :: [])) =
          some (body0, t ++ dashes ++ '\n' :: []) := by
        have hpat : hasPfx endMarkerNL ('\n' :: ((endMarker ++ t) ++ dashes ++ '\n' :: [])) = true := by
          rw [hndl]
          exact hasPfx_append endMarkerNL _
        have hno := hasPfx_endNL_inside body0 ((endMarker ++ t) ++ dashes ++ '\n' :: []) hxs
        have := cutAround_append endMarkerNL body0
          ('\n' :: ((endMarker ++ t) ++ dashes ++ '\n' :: [])) hpat hno
        rw [this, hndl, List.drop_left]
      -- the body decodes to the original bytes
      have hfw := filter_wrapLines (b64EncodeBytes (b0 :: bs)).length
        (b64EncodeBytes (b0 :: bs)) le_rfl (fun c hc => (hEC c hc).1)
      rw [hb0, List.filter_append] at hfw
      have hfnl : (['\n'] : List Char).filter (fun c => !(isPemSpace c)) = [] := by decide
      rw [hfnl, List.append_nil] at hfw
      refine decodeAttempt_eval t _ body0 (t ++ dashes ++ '\n' :: []) (b0 :: bs)
        hnl hr3ne hnc ?_ rfl ?_
      · rw [if_neg (by rw [hnopfx]; simp), hcut]
      · rw [hfw]
        exact b64_roundtrip _ hb

/-- PEM decoding inverts PEM encoding whenever the block type holds no
newline and no colon (both types the program uses qualify). -/
theorem pem_roundtrip (t : List Char) (b : List Nat) (hb : ∀ x ∈ b, x < 256)
    (hnl : '\n' ∉ t) (hcol : ':' ∉ t) :
    pemDecode (pemEncode t b) = some (t, b) := by
  have hshape : pemEncode t b = beginMarker ++
      (t ++ dashes ++ '\n' :: (wrapLines (b64EncodeBytes b) ++
        ((endMarker ++ t) ++ dashes ++ '\n' :: []))) := by
    simp [pemEncode, List.append_assoc]
  unfold pemDecode
  rw [hshape]
  simp only [pemDecodeAux, hasPfx_append, eq_self_iff_true, if_true, List.drop_left,
    decodeAttempt_encode t b hb hnl hcol]

/-! ## Host addresses (Go `net.ParseIP`)

`GenerateSelfSignedCAWithSAN` and `GenerateClientCert` embed
`net.ParseIP(hostIP)` in the certificate templates' `IPAddresses`
lists without checking the result; a failed parse stores Go's `nil`,
modelled as `none`. The model covers the dotted-quad IPv4 grammar
(four non-empty decimal fields, each at most 255, no leading zeros);
other address syntaxes are modelled as unparseable. -/

/-- An IPv4 address as four octets. -/
structure IPv4 where
  o1 : Nat
  o2 : Nat
  o3 : Nat
  o4 : Nat
deriving DecidableEq, Inhabited

/-- Numeric value of a decimal digit string. -/
def digitsVal (s : List Char) : Nat :=
  s.foldl (fun acc c => acc * 10 + (c.toNat - '0'.toNat)) 0

/-- One dotted-quad field: non-empty, all digits, no leading zero, at
most 255. -/
def parseOctet (s : List Char) : Option Nat :=
  if s = [] then none
  else if ¬ s.all Char.isDigit then none
  else if 1 < s.length ∧ s.headD '0' = '0' then none
  else if digitsVal s ≤ 255 then some (digitsVal s) else none

/-- Split a text at every dot. -/
def splitOnDot : List Char → List (List Char)
  | [] => [[]]
  | c :: rest =>
      if c = '.' then [] :: splitOnDot rest
      else
        match splitOnDot rest with
        | f :: fs => (c :: f) :: fs
        | [] => [[c]]

/-- Go `net.ParseIP`, restricted to the IPv4 dotted-quad grammar. -/
def parseIP (s : String) : Option IPv4 :=
  match (splitOnDot s.toList).map parseOctet with
  | [some a, some b, some c, some d] => some ⟨a, b, c, d⟩
  | _ => none

/-! ## X.509 model (`crypto/x509`, `crypto/ecdsa`)

A certificate template records the fields `GenerateSelfSignedCAWithSAN`
and `GenerateClientCert` populate. Key pairs are identified by the
index of the `ecdsa.GenerateKey` call that produced them.
`x509.CreateCertificate(rand, template, parent, pub, priv)` yields a
signed certificate whose content is the template, whose issuer is the
parent's subject, and whose signature is made with `priv`. Times are
seconds since the Unix epoch; each `time.Now()` call reads the next
value of a clock stream. -/

structure PkixName where
  organization : List String
  commonName : String
deriving DecidableEq, Inhabited

inductive KeyUsageFlag where
  | certSign
  | digitalSignature
  | keyEncipherment
deriving DecidableEq

inductive ExtKeyUsageFlag where
  | clientAuth
deriving DecidableEq

structure Certificate where
  serialNumber : Nat
  subject : PkixName
  notBefore : Nat
  notAfter : Nat
  keyUsage : List KeyUsageFlag
  extKeyUsage : List ExtKeyUsageFlag
  basicConstraintsValid : Bool
  isCA : Bool
  ipAddresses : List (Option IPv4)
deriving DecidableEq, Inhabited

structure SignedCertificate where
  tbs : Certificate
  issuer : PkixName
  publicKeyId : Nat
  signedByKeyId : Nat
deriving DecidableEq, Inhabited

/-- `x509.CreateCertificate`: sign `tmpl` in the name of `parent`'s
subject with the private key `priv`; `pub` is the public key embedded
in the certificate. -/
def createCertificate (tmpl parent : Certificate) (pub priv : Nat) : SignedCertificate :=
  { tbs := tmpl, issuer := parent.subject, publicKeyId := pub, signedByKeyId := priv }

/-- The CA template built by `GenerateSelfSignedCAWithSAN`; `t1` and
`t2` are the two `time.Now()` readings. -/
def caTemplate (hostIP : String) (t1 t2 : Nat) : Certificate :=
  { serialNumber := 1
    subject := { organization := ["Kubernetes"], commonName := "Kubernetes CA" }
    notBefore := t1
    notAfter := t2 + 365 * 24 * 3600
    keyUsage := [.certSign, .digitalSignature]
    extKeyUsage := []
    basicConstraintsValid := true
    isCA := true
    ipAddresses := [parseIP hostIP] }

/-- The client template built by `GenerateSelfSignedCAWithSAN`; `t3`
and `t4` are its two `time.Now()` readings. -/
def clientTemplate (hostIP : String) (t3 t4 : Nat) : Certificate :=
  { serialNumber := 2
    subject := { organization := ["Kubernetes"], commonName := "Kubernetes Client" }
    notBefore := t3
    notAfter := t4 + 365 * 24 * 3600
    keyUsage := [.digitalSignature, .keyEncipherment]
    extKeyUsage := [.clientAuth]
    basicConstraintsValid := false
    isCA := false
    ipAddresses := [parseIP hostIP] }

/-- The client template built by `GenerateClientCert`; its serial is
the first `time.Now()` reading (`.Unix()`), the validity window uses
the second and third. -/
def clientCertTemplate (hostIP : String) (serialTime t2 t3 : Nat) : Certificate :=
  { serialNumber := serialTime
    subject := { organization := ["Kubernetes"], commonName := "Kubernetes Client" }
    notBefore := t2
    notAfter := t3 + 365 * 24 * 3600
    keyUsage := [.digitalSignature, .keyEncipherment]
    extKeyUsage := [.clientAuth]
    basicConstraintsValid := false
    isCA := false
    ipAddresses := [parseIP hostIP] }

/-- Environment of one `GenerateSelfSignedCAWithSAN` run: clock stream
(indexed by `time.Now()` call), success of each `ecdsa.GenerateKey`
call, success of each `writePEMFile` call. -/
structure IssuanceEnv where
  clock : Nat → Nat
  keyGenOk : Nat → Bool
  writeOk : String → Bool

inductive DerPayload where
  | cert (c : SignedCertificate)
  | ecKey (keyId : Nat)
deriving DecidableEq, Inhabited

/-- One `writePEMFile` call: target path, PEM block type, payload. -/
structure FileWrite where
  path : String
  blockType : String
  payload : DerPayload
deriving DecidableEq, Inhabited

structure IssuanceResult where
  caCert : SignedCertificate
  clientCert : SignedCertificate
  caKeyId : Nat
  clientKeyId : Nat
  files : List FileWrite
deriving DecidableEq, Inhabited

/-- `GenerateSelfSignedCAWithSAN`: generate the CA key, build the CA
template, self-sign it, write `ca.crt` and `ca.key`, generate the
client key, build the client template, sign it with the CA key, write
`client.crt` and `client.key`. The CA key is generation 0, the client
key generation 1. Failures of `x509.CreateCertificate` and
`MarshalECPrivateKey` (impossible for the inputs this code builds) are
not modelled. -/
def generateSelfSignedCAWithSAN (env : IssuanceEnv)
    (caCertPath caKeyPath clientCertPath clientKeyPath hostIP : String) :
    Except String IssuanceResult :=
  if env.keyGenOk 0 then
    let caPriv := 0
    let caT := caTemplate hostIP (env.clock 0) (env.clock 1)
    let caCert := createCertificate caT caT caPriv caPriv
    if env.writeOk caCertPath then
      if env.writeOk caKeyPath then
        if env.keyGenOk 1 then
          let clientPriv := 1
          let clT := clientTemplate hostIP (env.clock 2) (env.clock 3)
          let clientCert := createCertificate clT caT clientPriv caPriv
          if env.writeOk clientCertPath then
            if env.writeOk clientKeyPath then
              .ok { caCert := caCert
                    clientCert := clientCert
                    caKeyId := caPriv
                    clientKeyId := clientPriv
                    files := [{ path := caCertPath, blockType := "CERTIFICATE",
                                payload := .cert caCert },
                              { path := caKeyPath, blockType := "EC PRIVATE KEY",
                                payload := .ecKey caPriv },
                              { path := clientCertPath, blockType := "CERTIFICATE",
                                payload := .cert clientCert },
                              { path := clientKeyPath, blockType := "EC PRIVATE KEY",
                                payload := .ecKey clientPriv }] }
            else .error "failed to write client private key"
          else .error "failed to write client certificate"
        else .error "failed to generate client private key"
      else .error "failed to write CA private key"
    else .error "failed to write CA certificate"
  else .error "failed to generate CA private key"

/-- Environment of one `GenerateClientCert` run. Reading, PEM-decoding
and parsing of the CA certificate and key files are collapsed into the
`Option`-valued parse results. -/
structure ClientCertEnv where
  clock : Nat → Nat
  caCert : Option SignedCertificate
  caKeyId : Option Nat
  clientKeyId : Nat
  keyGenOk : Bool
  writeOk : String → Bool

/-- `GenerateClientCert`: parse the CA certificate and key, generate a
client key, build a template whose serial is `time.Now().Unix()`, sign
it with the CA key, and write the certificate and key files. -/
def generateClientCert (env : ClientCertEnv)
    (caCertPath caKeyPath clientCertPath clientKeyPath hostIP : String) :
    Except String SignedCertificate :=
  match env.caCert with
  | none => .error "failed to read or parse CA certificate"
  | some caCert =>
      match env.caKeyId with
      | none => .error "failed to read or parse CA private key"
      | some caKey =>
          if env.keyGenOk then
            let tmpl := clientCertTemplate hostIP (env.clock 0) (env.clock 1) (env.clock 2)
            let cert := createCertificate tmpl caCert.tbs env.clientKeyId caKey
            if env.writeOk clientCertPath then
              if env.writeOk clientKeyPath then .ok cert
              else .error "failed to encode client private key to PEM"
            else .error "failed to create client certificate file"
          else .error "failed to generate client private key"

/-! ## `RestoreEtcdSnapshot` (pkg/etcd/restore.go) as an effect trace

Each docker invocation is recorded in order; the function stops at the
first fatal failure. Removing a container or volume that may not exist
ignores errors, as in the source. -/

inductive RestoreEffect where
  | pullImage (ref : String)
  | removeContainer (name : String)
  | removeVolume (name : String)
  | createVolume (name : String)
  | runRestore (snapshotPath volumeName : String)
deriving DecidableEq

structure RestoreEnv where
  snapshotExists : Bool
  pullOk : Bool
  volumeCreateOk : Bool
  restoreOk : Bool

/-- `RestoreEtcdSnapshot`: validate the snapshot file, pull the etcd
image, remove any old container and volume, create a fresh volume, and
run `etcdutl snapshot restore` in a container. -/
def restoreEtcdSnapshot (env : RestoreEnv)
    (snapshotPath containerName volumeName : String) :
    List RestoreEffect × Except String Unit :=
  if ¬ env.snapshotExists then
    ([], .error ("snapshot file not found: " ++ snapshotPath))
  else
    let tr1 := [RestoreEffect.pullImage "quay.io/coreos/etcd:v3.5.7"]
    if ¬ env.pullOk then (tr1, .error "failed to pull etcd Docker image")
    else
      let tr2 := tr1 ++ [RestoreEffect.removeContainer containerName,
                         RestoreEffect.removeVolume volumeName,
                         RestoreEffect.createVolume volumeName]
      if ¬ env.volumeCreateOk then (tr2, .error "failed to create Docker volume")
      else
        let tr3 := tr2 ++ [RestoreEffect.runRestore snapshotPath volumeName]
        if ¬ env.restoreOk then (tr3, .error "failed to restore snapshot")
        else (tr3, .ok ())

/-! ## `StartKubeAPIServer` as an effect trace

The source removes any old API-server container, rejects an empty etcd
endpoint, creates the certificate volume, generates certificates into
it via `GenerateSelfSignedCAInVolume`, and only then checks that
`./encryption-config.json` exists before running the API-server
container. -/

inductive StartEffect where
  | removeContainer (name : String)
  | createVolume (name : String)
  | generateCerts (volumeName volumeCertDir hostIP : String)
  | runAPIServer (args : List String)
deriving DecidableEq

structure StartEnv where
  volumeCreateOk : Bool
  certGenOk : Bool
  configExists : Bool
  runOk : Bool

/-- The full `docker run` argument list `StartKubeAPIServer` composes;
`filepath.Join(volumeCertDir, ...)` yields `/certs/ca.crt` and
`/certs/ca.key`. -/
def kubeAPIServerArgs (etcdEndpoint containerName volumeName : String) : List String :=
  ["docker", "run", "-d", "--name", containerName,
   "--network", "host",
   "-v", volumeName ++ ":/certs",
   "-v", "./encryption-config.json:/etc/kubernetes/encryption-config.json",
   "k8s.gcr.io/kube-apiserver:v1.27.1",
   "/usr/local/bin/kube-apiserver",
   "--etcd-servers=" ++ etcdEndpoint,
   "--service-cluster-ip-range=10.96.0.0/12",
   "--allow-privileged=true",
   "--anonymous-auth=true",
   "--advertise-address=0.0.0.0",
   "--service-account-signing-key-file=/certs/ca.key",
   "--service-account-issuer=https://kubernetes.default.svc.cluster.local",
   "--service-account-key-file=/certs/ca.crt",
   "--tls-cert-file=/certs/ca.crt",
   "--tls-private-key-file=/certs/ca.key",
   "--client-ca-file=/certs/ca.crt",
   "--tls-cert-file=/certs/ca.crt",
   "--tls-private-key-file=/certs/ca.key",
   "--v=2"]

/-- `StartKubeAPIServer`, with each external action recorded in order.
Certificate generation through `GenerateSelfSignedCAInVolume` (key and
certificate creation, staging, copy into the volume) is one recorded
step whose internals are `generateSelfSignedCAWithSAN`. -/
def startKubeAPIServer (env : StartEnv)
    (etcdEndpoint containerName volumeName hostIP outputDir : String) :
    List StartEffect × Except String Unit :=
  let tr0 := [StartEffect.removeContainer containerName]
  if etcdEndpoint = "" then
    (tr0, .error "etcd endpoint is required to start kube-apiserver")
  else
    let tr1 := tr0 ++ [StartEffect.createVolume volumeName]
    if ¬ env.volumeCreateOk then (tr1, .error "failed to create Docker volume")
    else
      let tr2 := tr1 ++ [StartEffect.generateCerts volumeName "/certs" hostIP]
      if ¬ env.certGenOk then (tr2, .error "error generating self-signed CA")
      else
        if ¬ env.configExists then
          (tr2, .error "encryption configuration file not found at ./encryption-config.json")
        else
          let tr3 := tr2 ++ [StartEffect.runAPIServer
            (kubeAPIServerArgs etcdEndpoint containerName volumeName)]
          if ¬ env.runOk then (tr3, .error "failed to start kube-apiserver")
          else (tr3, .ok ())

/-! ## `GenerateKubeconfig` as an effect trace

The three client-facing artifacts are copied out of the API-server
container (`docker cp`) and read back; retrieval and local re-reading
of one artifact are collapsed into a single `Option`-valued lookup.
Only afterwards is the kubeconfig file created and the rendered
document written. -/

inductive KubeEffect where
  | copyFromContainer (containerPath : String)
  | createFile (path : String)
  | writeDocument (path : String)
deriving DecidableEq

structure KubeEnv where
  mkTempOk : Bool
  copyOut : String → Option (List Nat)
  createOk : Bool

/-- The fields interpolated into the kubeconfig template. -/
structure KubeconfigData where
  serverURL : String
  caCertData : List Char
  clientCertData : List Char
  clientKeyData : List Char
deriving DecidableEq, Inhabited

/-- The rendered kubeconfig document (the Go `text/template` output,
which starts with a newline). -/
def renderKubeconfig (d : KubeconfigData) : String :=
  "\napiVersion: v1\nkind: Config\nclusters:\n- cluster:\n    server: " ++
  d.serverURL ++
  "\n    certificate-authority-data: " ++ String.mk d.caCertData ++
  "\n  name: kubernetes\ncontexts:\n- context:\n    cluster: kubernetes\n    user: admin\n  name: kubernetes\ncurrent-context: kubernetes\nusers:\n- name: admin\n  user:\n    client-certificate-data: " ++
  String.mk d.clientCertData ++
  "\n    client-key-data: " ++ String.mk d.clientKeyData ++ "\n"

/-- `GenerateKubeconfig`: copy `ca.crt`, `client.crt`, `client.key`
out of the container, base64-encode each, then create the kubeconfig
file and render the document into it. -/
def generateKubeconfig (env : KubeEnv)
    (kubeconfigPath serverURL containerName : String) :
    List KubeEffect × Except String KubeconfigData :=
  if ¬ env.mkTempOk then ([], .error "failed to create temporary directory")
  else
    let tr1 := [KubeEffect.copyFromContainer "/certs/ca.crt"]
    match env.copyOut "/certs/ca.crt" with
    | none => (tr1, .error "failed to copy CA certificate from container")
    | some caCertBytes =>
        let tr2 := tr1 ++ [KubeEffect.copyFromContainer "/certs/client.crt"]
        match env.copyOut "/certs/client.crt" with
        | none => (tr2, .error "failed to copy client certificate from container")
        | some clientCertBytes =>
            let tr3 := tr2 ++ [KubeEffect.copyFromContainer "/certs/client.key"]
            match env.copyOut "/certs/client.key" with
            | none => (tr3, .error "failed to copy client key from container")
            | some clientKeyBytes =>
                let data : KubeconfigData :=
                  { serverURL := serverURL
                    caCertData := b64EncodeBytes caCertBytes
                    clientCertData := b64EncodeBytes clientCertBytes
                    clientKeyData := b64EncodeBytes clientKeyBytes }
                if ¬ env.createOk then
                  (tr3, .error "failed to create kubeconfig file")
                else
                  (tr3 ++ [KubeEffect.createFile kubeconfigPath,
                           KubeEffect.writeDocument kubeconfigPath], .ok data)

/-! ## Helpers for stating and instantiating the claims -/

def issuanceResult? : Except String IssuanceResult → Option IssuanceResult
  | .ok r => some r
  | .error _ => none

def clientCert? : Except String SignedCertificate → Option SignedCertificate
  | .ok c => some c
  | .error _ => none

def kubeconfigData? : Except String KubeconfigData → Option KubeconfigData
  | .ok d => some d
  | .error _ => none

/-- Inversion: a successful `GenerateSelfSignedCAWithSAN` run returns
exactly the certificates and file writes built along its happy path. -/
theorem generateSelfSignedCAWithSAN_ok (env : IssuanceEnv)
    (p1 p2 p3 p4 ip : String) (r : IssuanceResult)
    (h : generateSelfSignedCAWithSAN env p1 p2 p3 p4 ip = .ok r) :
    r = { caCert := createCertificate (caTemplate ip (env.clock 0) (env.clock 1))
            (caTemplate ip (env.clock 0) (env.clock 1)) 0 0
          clientCert := createCertificate (clientTemplate ip (env.clock 2) (env.clock 3))
            (caTemplate ip (env.clock 0) (env.clock 1)) 1 0
          caKeyId := 0
          clientKeyId := 1
          files := [{ path := p1, blockType := "CERTIFICATE",
                      payload := .cert (createCertificate (caTemplate ip (env.clock 0) (env.clock 1))
                        (caTemplate ip (env.clock 0) (env.clock 1)) 0 0) },
                    { path := p2, blockType := "EC PRIVATE KEY", payload := .ecKey 0 },
                    { path := p3, blockType := "CERTIFICATE",
                      payload := .cert (createCertificate (clientTemplate ip (env.clock 2) (env.clock 3))
                        (caTemplate ip (env.clock 0) (env.clock 1)) 1 0) },
                    { path := p4, blockType := "EC PRIVATE KEY", payload := .ecKey 1 }] } := by
  simp only [generateSelfSignedCAWithSAN] at h
  split at h
  · split at h
    · split at h
      · split at h
        · split at h
          · split at h
            · injection h with h
              exact h.symm
            · exact Except.noConfusion h
          · exact Except.noConfusion h
        · exact Except.noConfusion h
      · exact Except.noConfusion h
    · exact Except.noConfusion h
  · exact Except.noConfusion h

/-- With working key generation and file writes, issuance succeeds. -/
theorem generateSelfSignedCAWithSAN_all_ok (env : IssuanceEnv)
    (p1 p2 p3 p4 ip : String)
    (hk : ∀ i, env.keyGenOk i = true) (hw : ∀ p, env.writeOk p = true) :
    generateSelfSignedCAWithSAN env p1 p2 p3 p4 ip =
      .ok { caCert := createCertificate (caTemplate ip (env.clock 0) (env.clock 1))
              (caTemplate ip (env.clock 0) (env.clock 1)) 0 0
            clientCert := createCertificate (clientTemplate ip (env.clock 2) (env.clock 3))
              (caTemplate ip (env.clock 0) (env.clock 1)) 1 0
            caKeyId := 0
            clientKeyId := 1
            files := [{ path := p1, blockType := "CERTIFICATE",
                        payload := .cert (createCertificate (caTemplate ip (env.clock 0) (env.clock 1))
                          (caTemplate ip (env.clock 0) (env.clock 1)) 0 0) },
                      { path := p2, blockType := "EC PRIVATE KEY", payload := .ecKey 0 },
                      { path := p3, blockType := "CERTIFICATE",
                        payload := .cert (createCertificate (clientTemplate ip (env.clock 2) (env.clock 3))
                          (caTemplate ip (env.clock 0) (env.clock 1)) 1 0) },
                      { path := p4, blockType := "EC PRIVATE KEY", payload := .ecKey 1 }] } := by
  simp only [generateSelfSignedCAWithSAN, hk 0, hk 1, hw p1, hw p2, hw p3, hw p4, if_true]

/-- Inversion: a successful `GenerateClientCert` run returns the
certificate built from its template, whose serial is the first clock
reading, signed with the parsed CA key in the name of the parsed CA
certificate's subject. -/
theorem generateClientCert_ok (env : ClientCertEnv)
    (p1 p2 p3 p4 ip : String) (c : SignedCertificate) (ca : SignedCertificate) (k : Nat)
    (hca : env.caCert = some ca) (hk : env.caKeyId = some k)
    (h : generateClientCert env p1 p2 p3 p4 ip = .ok c) :
    c = createCertificate (clientCertTemplate ip (env.clock 0) (env.clock 1) (env.clock 2))
          ca.tbs env.clientKeyId k := by
  simp only [generateClientCert, hca, hk] at h
  split at h
  · split at h
    · split at h
      · injection h with h
        exact h.symm
      · exact Except.noConfusion h
    · exact Except.noConfusion h
  · exact Except.noConfusion h

/-! ### Concrete environments used by the witnesses -/

def okIssuanceEnv : IssuanceEnv :=
  { clock := fun i => 1700000000 + i, keyGenOk := fun _ => true, writeOk := fun _ => true }

def secondIssuanceEnv : IssuanceEnv :=
  { clock := fun i => 1800000000 + i, keyGenOk := fun _ => true, writeOk := fun _ => true }

def okIssuance : Except String IssuanceResult :=
  generateSelfSignedCAWithSAN okIssuanceEnv "/tmp/certs/ca.crt" "/tmp/certs/ca.key"
    "/tmp/certs/client.crt" "/tmp/certs/client.key" "10.0.0.5"

def okIssuanceRes : IssuanceResult := (issuanceResult? okIssuance).getD default

def badIPIssuance : Except String IssuanceResult :=
  generateSelfSignedCAWithSAN okIssuanceEnv "/tmp/certs/ca.crt" "/tmp/certs/ca.key"
    "/tmp/certs/client.crt" "/tmp/certs/client.key" "snapshot-host"

def okCACert : SignedCertificate :=
  createCertificate (caTemplate "10.0.0.5" 1700000000 1700000001)
    (caTemplate "10.0.0.5" 1700000000 1700000001) 0 0

def firstClientEnv : ClientCertEnv :=
  { clock := fun i => 1700000100 + i, caCert := some okCACert, caKeyId := some 0,
    clientKeyId := 2, keyGenOk := true, writeOk := fun _ => true }

def secondClientEnv : ClientCertEnv :=
  { clock := fun i => 1700000200 + i, caCert := some okCACert, caKeyId := some 0,
    clientKeyId := 3, keyGenOk := true, writeOk := fun _ => true }

/-! ## Claim theorems -/

/-- C6: the generated CA certificate is self-signed — its issuer equals
its own subject, it is created with `IsCA = true`, and it is signed
with its own private key (the same generation-0 key whose public half
is embedded in the template); the client leaf certificate's issuer is
the CA's subject and it is signed with the CA's private key. -/
theorem ca_self_signed_client_ca_signed (env : IssuanceEnv)
    (p1 p2 p3 p4 ip : String) (r : IssuanceResult)
    (h : generateSelfSignedCAWithSAN env p1 p2 p3 p4 ip = .ok r) :
    r.caCert.issuer = r.caCert.tbs.subject ∧
    r.caCert.tbs.isCA = true ∧
    r.caCert.signedByKeyId = r.caKeyId ∧
    r.caCert.publicKeyId = r.caKeyId ∧
    r.clientCert.issuer = r.caCert.tbs.subject ∧
    r.clientCert.signedByKeyId = r.caKeyId := by
  rw [generateSelfSignedCAWithSAN_ok env p1 p2 p3 p4 ip r h]
  simp [createCertificate, caTemplate, clientTemplate]

theorem ca_self_signed_client_ca_signed_witness :
    okIssuance = Except.ok okIssuanceRes ∧
    (okIssuanceRes.caCert.issuer = okIssuanceRes.caCert.tbs.subject ∧
     okIssuanceRes.caCert.tbs.isCA = true ∧
     okIssuanceRes.caCert.signedByKeyId = okIssuanceRes.caKeyId ∧
     okIssuanceRes.caCert.publicKeyId = okIssuanceRes.caKeyId ∧
     okIssuanceRes.clientCert.issuer = okIssuanceRes.caCert.tbs.subject ∧
     okIssuanceRes.clientCert.signedByKeyId = okIssuanceRes.caKeyId) :=
  ⟨rfl, ca_self_signed_client_ca_signed okIssuanceEnv _ _ _ _ _ okIssuanceRes rfl⟩

/-- C7: for a host address the parser accepts, both the CA and the
client certificate templates carry exactly that address as their
IP-address subject alternative names. -/
theorem san_contains_host_address (env : IssuanceEnv)
    (p1 p2 p3 p4 ip : String) (a : IPv4) (r : IssuanceResult)
    (hip : parseIP ip = some a)
    (h : generateSelfSignedCAWithSAN env p1 p2 p3 p4 ip = .ok r) :
    r.caCert.tbs.ipAddresses = [some a] ∧
    r.clientCert.tbs.ipAddresses = [some a] := by
  rw [generateSelfSignedCAWithSAN_ok env p1 p2 p3 p4 ip r h]
  simp [createCertificate, caTemplate, clientTemplate, hip]

theorem san_contains_host_address_witness :
    parseIP "10.0.0.5" = some { o1 := 10, o2 := 0, o3 := 0, o4 := 5 } ∧
    okIssuance = Except.ok okIssuanceRes ∧
    (okIssuanceRes.caCert.tbs.ipAddresses =
       [some { o1 := 10, o2 := 0, o3 := 0, o4 := 5 }] ∧
     okIssuanceRes.clientCert.tbs.ipAddresses =
       [some { o1 := 10, o2 := 0, o3 := 0, o4 := 5 }]) :=
  ⟨by decide, rfl,
   san_contains_host_address okIssuanceEnv _ _ _ _ _ _ okIssuanceRes (by decide) rfl⟩

/-- C8: for both the CA and the leaf certificate template, the validity
window is 365 days up to the drift between the template's two
`time.Now()` readings. -/
theorem validity_window_365_days (env : IssuanceEnv)
    (p1 p2 p3 p4 ip : String) (eps : Nat) (r : IssuanceResult)
    (h : generateSelfSignedCAWithSAN env p1 p2 p3 p4 ip = .ok r)
    (h01 : env.clock 0 ≤ env.clock 1) (h01e : env.clock 1 ≤ env.clock 0 + eps)
    (h23 : env.clock 2 ≤ env.clock 3) (h23e : env.clock 3 ≤ env.clock 2 + eps) :
    365 * 24 * 3600 ≤ r.caCert.tbs.notAfter - r.caCert.tbs.notBefore ∧
    r.caCert.tbs.notAfter - r.caCert.tbs.notBefore ≤ 365 * 24 * 3600 + eps ∧
    365 * 24 * 3600 ≤ r.clientCert.tbs.notAfter - r.clientCert.tbs.notBefore ∧
    r.clientCert.tbs.notAfter - r.clientCert.tbs.notBefore ≤ 365 * 24 * 3600 + eps := by
  rw [generateSelfSignedCAWithSAN_ok env p1 p2 p3 p4 ip r h]
  simp only [createCertificate, caTemplate, clientTemplate]
  omega

theorem validity_window_365_days_witness :
    okIssuance = Except.ok okIssuanceRes ∧
    okIssuanceEnv.clock 0 ≤ okIssuanceEnv.clock 1 ∧
    okIssuanceEnv.clock 1 ≤ okIssuanceEnv.clock 0 + 5 ∧
    okIssuanceEnv.clock 2 ≤ okIssuanceEnv.clock 3 ∧
    okIssuanceEnv.clock 3 ≤ okIssuanceEnv.clock 2 + 5 ∧
    (365 * 24 * 3600 ≤ okIssuanceRes.caCert.tbs.notAfter - okIssuanceRes.caCert.tbs.notBefore ∧
     okIssuanceRes.caCert.tbs.notAfter - okIssuanceRes.caCert.tbs.notBefore ≤ 365 * 24 * 3600 + 5 ∧
     365 * 24 * 3600 ≤ okIssuanceRes.clientCert.tbs.notAfter - okIssuanceRes.clientCert.tbs.notBefore ∧
     okIssuanceRes.clientCert.tbs.notAfter - okIssuanceRes.clientCert.tbs.notBefore ≤ 365 * 24 * 3600 + 5) :=
  ⟨rfl, by decide, by decide, by decide, by decide,
   validity_window_365_days okIssuanceEnv _ _ _ _ _ 5 okIssuanceRes rfl
     (by decide) (by decide) (by decide) (by decide)⟩

/-- C9: a host address the parser rejects does not fail issuance at
this layer — with working key generation and file writes the run
succeeds, and both certificates carry `[none]` (Go `nil`) as their
IP-address subject alternative names. -/
theorem invalid_host_address_not_rejected (env : IssuanceEnv)
    (p1 p2 p3 p4 ip : String)
    (hip : parseIP ip = none)
    (hk : ∀ i, env.keyGenOk i = true) (hw : ∀ p, env.writeOk p = true) :
    (issuanceResult? (generateSelfSignedCAWithSAN env p1 p2 p3 p4 ip)).map
      (fun r => (r.caCert.tbs.ipAddresses, r.clientCert.tbs.ipAddresses)) =
      some ([none], [none]) := by
  rw [generateSelfSignedCAWithSAN_all_ok env p1 p2 p3 p4 ip hk hw]
  simp [issuanceResult?, createCertificate, caTemplate, clientTemplate, hip]

theorem invalid_host_address_not_rejected_witness :
    parseIP "snapshot-host" = none ∧
    (issuanceResult? badIPIssuance).map
      (fun r => (r.caCert.tbs.ipAddresses, r.clientCert.tbs.ipAddresses)) =
      some ([none], [none]) :=
  ⟨by decide,
   invalid_host_address_not_rejected okIssuanceEnv _ _ _ _ _ (by decide)
     (fun _ => rfl) (fun _ => rfl)⟩

/-- C10: issuance produces exactly the CA pair and one client-auth
leaf pair (four file writes, two certificates), and the API server is
started with the CA certificate as its serving certificate, client CA
and service-account key file, and the CA private key as its TLS
private key and service-account signing key — no separate server leaf
certificate exists. -/
theorem apiserver_reuses_ca_material (env : IssuanceEnv)
    (p1 p2 p3 p4 ip : String) (r : IssuanceResult)
    (h : generateSelfSignedCAWithSAN env p1 p2 p3 p4 ip = .ok r) :
    r.files = [{ path := p1, blockType := "CERTIFICATE", payload := .cert r.caCert },
               { path := p2, blockType := "EC PRIVATE KEY", payload := .ecKey r.caKeyId },
               { path := p3, blockType := "CERTIFICATE", payload := .cert r.clientCert },
               { path := p4, blockType := "EC PRIVATE KEY", payload := .ecKey r.clientKeyId }] ∧
    r.clientCert.tbs.extKeyUsage = [.clientAuth] ∧
    (∀ e c v : String,
      "--tls-cert-file=/certs/ca.crt" ∈ kubeAPIServerArgs e c v ∧
      "--tls-private-key-file=/certs/ca.key" ∈ kubeAPIServerArgs e c v ∧
      "--client-ca-file=/certs/ca.crt" ∈ kubeAPIServerArgs e c v ∧
      "--service-account-key-file=/certs/ca.crt" ∈ kubeAPIServerArgs e c v ∧
      "--service-account-signing-key-file=/certs/ca.key" ∈ kubeAPIServerArgs e c v) := by
  refine ⟨?_, ?_, ?_⟩
  · rw [generateSelfSignedCAWithSAN_ok env p1 p2 p3 p4 ip r h]
  · rw [generateSelfSignedCAWithSAN_ok env p1 p2 p3 p4 ip r h]
    simp [createCertificate, clientTemplate]
  · intro e c v
    refine ⟨?_, ?_, ?_, ?_, ?_⟩ <;> simp [kubeAPIServerArgs]

theorem apiserver_reuses_ca_material_witness :
    okIssuance = Except.ok okIssuanceRes ∧
    (okIssuanceRes.files =
       [{ path := "/tmp/certs/ca.crt", blockType := "CERTIFICATE",
          payload := .cert okIssuanceRes.caCert },
        { path := "/tmp/certs/ca.key", blockType := "EC PRIVATE KEY",
          payload := .ecKey okIssuanceRes.caKeyId },
        { path := "/tmp/certs/client.crt", blockType := "CERTIFICATE",
          payload := .cert okIssuanceRes.clientCert },
        { path := "/tmp/certs/client.key", blockType := "EC PRIVATE KEY",
          payload := .ecKey okIssuanceRes.clientKeyId }] ∧
     okIssuanceRes.clientCert.tbs.extKeyUsage = [.clientAuth]) ∧
    ("--tls-cert-file=/certs/ca.crt" ∈
       kubeAPIServerArgs "http://127.0.0.1:2379" "kube-apiserver" "certs-vol" ∧
     "--tls-private-key-file=/certs/ca.key" ∈
       kubeAPIServerArgs "http://127.0.0.1:2379" "kube-apiserver" "certs-vol" ∧
     "--client-ca-file=/certs/ca.crt" ∈
       kubeAPIServerArgs "http://127.0.0.1:2379" "kube-apiserver" "certs-vol" ∧
     "--service-account-key-file=/certs/ca.crt" ∈
       kubeAPIServerArgs "http://127.0.0.1:2379" "kube-apiserver" "certs-vol" ∧
     "--service-account-signing-key-file=/certs/ca.key" ∈
       kubeAPIServerArgs "http://127.0.0.1:2379" "kube-apiserver" "certs-vol") :=
  ⟨rfl,
   ⟨(apiserver_reuses_ca_material okIssuanceEnv _ _ _ _ _ okIssuanceRes rfl).1,
    (apiserver_reuses_ca_material okIssuanceEnv _ _ _ _ _ okIssuanceRes rfl).2.1⟩,
   (apiserver_reuses_ca_material okIssuanceEnv _ _ _ _ _ okIssuanceRes rfl).2.2
     "http://127.0.0.1:2379" "kube-apiserver" "certs-vol"⟩

def firstClientRun : Except String SignedCertificate :=
  generateClientCert firstClientEnv "/tmp/certs/ca.crt" "/tmp/certs/ca.key"
    "/tmp/client.crt" "/tmp/client.key" "10.0.0.5"

def firstClientCertRes : SignedCertificate := (clientCert? firstClientRun).getD default

def secondClientRun : Except String SignedCertificate :=
  generateClientCert secondClientEnv "/tmp/certs/ca.crt" "/tmp/certs/ca.key"
    "/tmp/client.crt" "/tmp/client.key" "10.0.0.5"

def secondClientCertRes : SignedCertificate := (clientCert? secondClientRun).getD default

/-- C1 counterexample: two `start`-cycle issuance runs at different
clocks both give the client leaf certificate the constant serial 2 —
the serials are equal, not distinct timestamps. -/
theorem start_cycle_client_serials_constant :
    (issuanceResult? (generateSelfSignedCAWithSAN okIssuanceEnv "/tmp/certs/ca.crt"
        "/tmp/certs/ca.key" "/tmp/certs/client.crt" "/tmp/certs/client.key"
        "10.0.0.5")).map (fun r => r.clientCert.tbs.serialNumber) = some 2 ∧
    (issuanceResult? (generateSelfSignedCAWithSAN secondIssuanceEnv "/tmp/certs/ca.crt"
        "/tmp/certs/ca.key" "/tmp/certs/client.crt" "/tmp/certs/client.key"
        "10.0.0.5")).map (fun r => r.clientCert.tbs.serialNumber) = some 2 ∧
    okIssuanceEnv.clock 0 ≠ secondIssuanceEnv.clock 0 :=
  ⟨rfl, rfl, by decide⟩

/-- C1 (amended): the `start`-cycle issuance (`GenerateSelfSignedCAWithSAN`)
uses the fixed serial 1 for the CA and the fixed serial 2 for the
client leaf, so successive runs repeat the client serial; only the
separate `GenerateClientCert` helper uses the generation timestamp as
a serial, and two of its runs at different seconds produce different
serials. -/
theorem issuance_serial_numbers :
    (∀ (env : IssuanceEnv) (p1 p2 p3 p4 ip : String) (r : IssuanceResult),
        generateSelfSignedCAWithSAN env p1 p2 p3 p4 ip = .ok r →
        r.caCert.tbs.serialNumber = 1 ∧ r.clientCert.tbs.serialNumber = 2) ∧
    (∀ (e1 e2 : ClientCertEnv) (q1 q2 q3 q4 s1 s2 s3 s4 ip1 ip2 : String)
        (c1 c2 ca1 ca2 : SignedCertificate) (k1 k2 : Nat),
        e1.caCert = some ca1 → e1.caKeyId = some k1 →
        e2.caCert = some ca2 → e2.caKeyId = some k2 →
        generateClientCert e1 q1 q2 q3 q4 ip1 = .ok c1 →
        generateClientCert e2 s1 s2 s3 s4 ip2 = .ok c2 →
        e1.clock 0 ≠ e2.clock 0 →
        c1.tbs.serialNumber = e1.clock 0 ∧ c2.tbs.serialNumber = e2.clock 0 ∧
        c1.tbs.serialNumber ≠ c2.tbs.serialNumber) := by
  constructor
  · intro env p1 p2 p3 p4 ip r h
    rw [generateSelfSignedCAWithSAN_ok env p1 p2 p3 p4 ip r h]
    simp [createCertificate, caTemplate, clientTemplate]
  · intro e1 e2 q1 q2 q3 q4 s1 s2 s3 s4 ip1 ip2 c1 c2 ca1 ca2 k1 k2
      hca1 hk1 hca2 hk2 h1 h2 hne
    rw [generateClientCert_ok e1 q1 q2 q3 q4 ip1 c1 ca1 k1 hca1 hk1 h1,
        generateClientCert_ok e2 s1 s2 s3 s4 ip2 c2 ca2 k2 hca2 hk2 h2]
    refine ⟨by simp [createCertificate, clientCertTemplate],
            by simp [createCertificate, clientCertTemplate], ?_⟩
    simp only [createCertificate, clientCertTemplate]
    exact hne

theorem issuance_serial_numbers_witness :
    okIssuance = Except.ok okIssuanceRes ∧
    (okIssuanceRes.caCert.tbs.serialNumber = 1 ∧
     okIssuanceRes.clientCert.tbs.serialNumber = 2) ∧
    firstClientRun = Except.ok firstClientCertRes ∧
    secondClientRun = Except.ok secondClientCertRes ∧
    firstClientEnv.clock 0 ≠ secondClientEnv.clock 0 ∧
    (firstClientCertRes.tbs.serialNumber = firstClientEnv.clock 0 ∧
     secondClientCertRes.tbs.serialNumber = secondClientEnv.clock 0 ∧
     firstClientCertRes.tbs.serialNumber ≠ secondClientCertRes.tbs.serialNumber) :=
  ⟨rfl, issuance_serial_numbers.1 okIssuanceEnv _ _ _ _ _ okIssuanceRes rfl,
   rfl, rfl, by decide,
   issuance_serial_numbers.2 firstClientEnv secondClientEnv
     "/tmp/certs/ca.crt" "/tmp/certs/ca.key" "/tmp/client.crt" "/tmp/client.key"
     "/tmp/certs/ca.crt" "/tmp/certs/ca.key" "/tmp/client.crt" "/tmp/client.key"
     "10.0.0.5" "10.0.0.5"
     firstClientCertRes secondClientCertRes okCACert okCACert 0 0
     rfl rfl rfl rfl rfl rfl (by decide)⟩

/-- C2 counterexample: the PEM round-trip fails for a block type
holding a newline — the encoded text's BEGIN line is broken and decode
finds no block at all. -/
theorem pem_roundtrip_fails_for_newline_type :
    pemDecode (pemEncode ['A', '\n', 'B'] [1]) ≠ some (['A', '\n', 'B'], [1]) := by
  decide

theorem pem_roundtrip_witness :
    (∀ x ∈ [48, 130, 2, 1, 255, 0], x < 256) ∧
    '\n' ∉ ['C', 'E', 'R', 'T', 'I', 'F', 'I', 'C', 'A', 'T', 'E'] ∧
    ':' ∉ ['C', 'E', 'R', 'T', 'I', 'F', 'I', 'C', 'A', 'T', 'E'] ∧
    pemDecode (pemEncode ['C', 'E', 'R', 'T', 'I', 'F', 'I', 'C', 'A', 'T', 'E']
        [48, 130, 2, 1, 255, 0]) =
      some (['C', 'E', 'R', 'T', 'I', 'F', 'I', 'C', 'A', 'T', 'E'],
        [48, 130, 2, 1, 255, 0]) :=
  ⟨by decide, by decide, by decide,
   pem_roundtrip ['C', 'E', 'R', 'T', 'I', 'F', 'I', 'C', 'A', 'T', 'E']
     [48, 130, 2, 1, 255, 0] (by decide) (by decide) (by decide)⟩

def missingSnapshotEnv : RestoreEnv :=
  { snapshotExists := false, pullOk := true, volumeCreateOk := true, restoreOk := true }

def missingConfigStartEnv : StartEnv :=
  { volumeCreateOk := true, certGenOk := true, configExists := false, runOk := true }

/-- C3 counterexample: with the encryption configuration missing and
everything else healthy, the `start` flow reports the missing input
only after the old container was removed, the certificate volume was
created and certificates were generated. -/
theorem start_missing_config_checked_after_side_effects :
    (startKubeAPIServer missingConfigStartEnv "http://127.0.0.1:2379" "kube-apiserver"
        "certs-vol" "10.0.0.5" "out").2 =
      .error "encryption configuration file not found at ./encryption-config.json" ∧
    StartEffect.createVolume "certs-vol" ∈
      (startKubeAPIServer missingConfigStartEnv "http://127.0.0.1:2379" "kube-apiserver"
        "certs-vol" "10.0.0.5" "out").1 ∧
    StartEffect.generateCerts "certs-vol" "/certs" "10.0.0.5" ∈
      (startKubeAPIServer missingConfigStartEnv "http://127.0.0.1:2379" "kube-apiserver"
        "certs-vol" "10.0.0.5" "out").1 :=
  ⟨rfl, by decide, by decide⟩

/-- C3 (amended): for `restore`, a missing snapshot file is reported
before any side effect (the trace is empty); for `start`, the missing
encryption configuration is reported only after container removal,
volume creation and certificate generation — it precedes only the
API-server container start. -/
theorem missing_input_check_placement :
    (∀ (env : RestoreEnv) (sp cn vn : String), env.snapshotExists = false →
        restoreEtcdSnapshot env sp cn vn =
          ([], .error ("snapshot file not found: " ++ sp))) ∧
    (∀ (env : StartEnv) (ep cn vn ip od : String), ep ≠ "" →
        env.configExists = false → env.volumeCreateOk = true → env.certGenOk = true →
        startKubeAPIServer env ep cn vn ip od =
          ([StartEffect.removeContainer cn, StartEffect.createVolume vn,
            StartEffect.generateCerts vn "/certs" ip],
           .error "encryption configuration file not found at ./encryption-config.json")) := by
  constructor
  · intro env sp cn vn h
    simp [restoreEtcdSnapshot, h]
  · intro env ep cn vn ip od hep hcfg hv hcg
    simp [startKubeAPIServer, hep, hcfg, hv, hcg]

theorem missing_input_check_placement_witness :
    missingSnapshotEnv.snapshotExists = false ∧
    restoreEtcdSnapshot missingSnapshotEnv "/tmp/snapshot.db" "etcd-restore" "etcd-vol" =
      ([], .error ("snapshot file not found: " ++ "/tmp/snapshot.db")) ∧
    missingConfigStartEnv.configExists = false ∧
    startKubeAPIServer missingConfigStartEnv "http://127.0.0.1:2379" "kube-apiserver"
        "certs-vol" "10.0.0.5" "out" =
      ([StartEffect.removeContainer "kube-apiserver", StartEffect.createVolume "certs-vol",
        StartEffect.generateCerts "certs-vol" "/certs" "10.0.0.5"],
       .error "encryption configuration file not found at ./encryption-config.json") :=
  ⟨rfl,
   missing_input_check_placement.1 missingSnapshotEnv "/tmp/snapshot.db" "etcd-restore"
     "etcd-vol" rfl,
   rfl,
   missing_input_check_placement.2 missingConfigStartEnv "http://127.0.0.1:2379"
     "kube-apiserver" "certs-vol" "10.0.0.5" "out" (by decide) rfl rfl rfl⟩

/-- C4: if any of the three client-facing artifacts cannot be
retrieved (the temporary staging directory itself being available),
kubeconfig materialization fails with the wrapped copy error of the
first unavailable artifact — an artifact-unavailable error, not any
other failure — and neither creates nor writes the output document. -/
theorem kubeconfig_missing_artifact_writes_nothing (env : KubeEnv)
    (kp s cn : String)
    (hm : env.mkTempOk = true)
    (h : env.copyOut "/certs/ca.crt" = none ∨ env.copyOut "/certs/client.crt" = none ∨
         env.copyOut "/certs/client.key" = none) :
    ((generateKubeconfig env kp s cn).2 =
        .error "failed to copy CA certificate from container" ∨
     (generateKubeconfig env kp s cn).2 =
        .error "failed to copy client certificate from container" ∨
     (generateKubeconfig env kp s cn).2 =
        .error "failed to copy client key from container") ∧
    KubeEffect.createFile kp ∉ (generateKubeconfig env kp s cn).1 ∧
    KubeEffect.writeDocument kp ∉ (generateKubeconfig env kp s cn).1 := by
  unfold generateKubeconfig
  cases h1 : env.copyOut "/certs/ca.crt" with
  | none => refine ⟨Or.inl ?_, ?_, ?_⟩ <;> simp [hm, h1]
  | some ca =>
      cases h2 : env.copyOut "/certs/client.crt" with
      | none => refine ⟨Or.inr (Or.inl ?_), ?_, ?_⟩ <;> simp [hm, h1, h2]
      | some cc =>
          cases h3 : env.copyOut "/certs/client.key" with
          | none => refine ⟨Or.inr (Or.inr ?_), ?_, ?_⟩ <;> simp [hm, h1, h2, h3]
          | some ck =>
              exfalso
              rcases h with h | h | h
              · rw [h] at h1; exact Option.noConfusion h1
              · rw [h] at h2; exact Option.noConfusion h2
              · rw [h] at h3; exact Option.noConfusion h3

def missingKeyKubeEnv : KubeEnv :=
  { mkTempOk := true
    copyOut := fun p => if p = "/certs/client.key" then none else some [1, 2, 3]
    createOk := true }

theorem kubeconfig_missing_artifact_writes_nothing_witness :
    missingKeyKubeEnv.mkTempOk = true ∧
    (missingKeyKubeEnv.copyOut "/certs/ca.crt" = none ∨
     missingKeyKubeEnv.copyOut "/certs/client.crt" = none ∨
     missingKeyKubeEnv.copyOut "/certs/client.key" = none) ∧
    (generateKubeconfig missingKeyKubeEnv "/tmp/kubeconfig"
        "https://10.0.0.5:6443" "kube-apiserver").2 =
      .error "failed to copy client key from container" ∧
    (((generateKubeconfig missingKeyKubeEnv "/tmp/kubeconfig"
         "https://10.0.0.5:6443" "kube-apiserver").2 =
        .error "failed to copy CA certificate from container" ∨
      (generateKubeconfig missingKeyKubeEnv "/tmp/kubeconfig"
         "https://10.0.0.5:6443" "kube-apiserver").2 =
        .error "failed to copy client certificate from container" ∨
      (generateKubeconfig missingKeyKubeEnv "/tmp/kubeconfig"
         "https://10.0.0.5:6443" "kube-apiserver").2 =
        .error "failed to copy client key from container") ∧
     KubeEffect.createFile "/tmp/kubeconfig" ∉
       (generateKubeconfig missingKeyKubeEnv "/tmp/kubeconfig"
         "https://10.0.0.5:6443" "kube-apiserver").1 ∧
     KubeEffect.writeDocument "/tmp/kubeconfig" ∉
       (generateKubeconfig missingKeyKubeEnv "/tmp/kubeconfig"
         "https://10.0.0.5:6443" "kube-apiserver").1) :=
  ⟨rfl, Or.inr (Or.inr (by decide)), rfl,
   kubeconfig_missing_artifact_writes_nothing missingKeyKubeEnv "/tmp/kubeconfig"
     "https://10.0.0.5:6443" "kube-apiserver" rfl (Or.inr (Or.inr (by decide)))⟩

/-- C5: given the three artifact files, materialization succeeds and
yields a document whose server field is the given address and whose
three base64 fields decode back to the artifact bytes. -/
theorem kubeconfig_materializes_artifacts (env : KubeEnv) (kp s cn : String)
    (caB ccB ckB : List Nat) (d : KubeconfigData)
    (hca : env.copyOut "/certs/ca.crt" = some caB)
    (hcc : env.copyOut "/certs/client.crt" = some ccB)
    (hck : env.copyOut "/certs/client.key" = some ckB)
    (hmt : env.mkTempOk = true) (hcr : env.createOk = true)
    (hbca : ∀ x ∈ caB, x < 256) (hbcc : ∀ x ∈ ccB, x < 256) (hbck : ∀ x ∈ ckB, x < 256)
    (hd : (generateKubeconfig env kp s cn).2 = .ok d) :
    d.serverURL = s ∧
    b64DecodeChars d.caCertData = some caB ∧
    b64DecodeChars d.clientCertData = some ccB ∧
    b64DecodeChars d.clientKeyData = some ckB := by
  simp only [generateKubeconfig, hmt, hca, hcc, hck, hcr, Bool.not_true, Bool.false_eq_true,
    if_false] at hd
  injection hd with hd
  rw [← hd]
  exact ⟨rfl, b64_roundtrip caB hbca, b64_roundtrip ccB hbcc, b64_roundtrip ckB hbck⟩

def okKubeEnv : KubeEnv :=
  { mkTempOk := true
    copyOut := fun p =>
      if p = "/certs/ca.crt" then some [48, 1, 2]
      else if p = "/certs/client.crt" then some [48, 3, 4, 5]
      else if p = "/certs/client.key" then some [48, 6] else none
    createOk := true }

def okKubeconfigData : KubeconfigData :=
  (kubeconfigData? (generateKubeconfig okKubeEnv "/tmp/kubeconfig"
    "https://10.0.0.5:6443" "kube-apiserver").2).getD default

theorem kubeconfig_materializes_artifacts_witness :
    okKubeEnv.copyOut "/certs/ca.crt" = some [48, 1, 2] ∧
    okKubeEnv.copyOut "/certs/client.crt" = some [48, 3, 4, 5] ∧
    okKubeEnv.copyOut "/certs/client.key" = some [48, 6] ∧
    (generateKubeconfig okKubeEnv "/tmp/kubeconfig" "https://10.0.0.5:6443"
        "kube-apiserver").2 = Except.ok okKubeconfigData ∧
    (okKubeconfigData.serverURL = "https://10.0.0.5:6443" ∧
     b64DecodeChars okKubeconfigData.caCertData = some [48, 1, 2] ∧
     b64DecodeChars okKubeconfigData.clientCertData = some [48, 3, 4, 5] ∧
     b64DecodeChars okKubeconfigData.clientKeyData = some [48, 6]) :=
  ⟨by decide, by decide, by decide, rfl,
   kubeconfig_materializes_artifacts okKubeEnv "/tmp/kubeconfig" "https://10.0.0.5:6443"
     "kube-apiserver" [48, 1, 2] [48, 3, 4, 5] [48, 6] okKubeconfigData
     (by decide) (by decide) (by decide) rfl rfl
     (by decide) (by decide) (by decide) rfl⟩

end SnapshotInsight
